import Mathlib

/-!
Verification development for the pulsar runtime sources.

The definitions below are a shallow embedding of the Python modules

  * pulsar/utils/http/parser.py   (incremental HTTP/1.x parser)
  * pulsar/utils/pylib/events.py  (one-time and repeatable events)
  * pulsar/async/concurrency.py   (actor hosting descriptors)
  * pulsar/apps/test/case.py      (test-case runner)

Bytes are modelled as lists of naturals, callback invocations as explicit
trace elements, Python exceptions as an error outcome carried next to the
(partially mutated) object state, and the unbounded while loop of
feed_data by a step budget (fuel), so that a run that never reaches a
return statement is visible as the fuelOut outcome for every budget.
-/

/-- A Python byte string written as the list of its byte values; the
string arguments used below are ASCII so each character is one byte. -/
def bstr (s : String) : List Nat := s.toList.map Char.toNat

/-- ASCII whitespace bytes, the set stripped by bytes.lstrip and matched
by the regex class backslash-s for byte patterns. -/
def isWSByte (b : Nat) : Bool :=
  b == 32 || b == 9 || b == 10 || b == 13 || b == 11 || b == 12

def isDigitByte (b : Nat) : Bool := 48 ≤ b && b ≤ 57

/-- Bytes matched by the regex class backslash-w: letters, digits and
the underscore. -/
def isWordByte (b : Nat) : Bool :=
  isDigitByte b || (65 ≤ b && b ≤ 90) || (97 ≤ b && b ≤ 122) || b == 95

/-- Bytes matched by the character class of METHOD_RE, which is written
[A-Z0-9$-_.]; the token between the dollar sign and the underscore is a
range, so the class is the byte range 36..95 (which already contains the
uppercase letters, the digits and the dot). -/
def isMethodByte (b : Nat) : Bool := 36 ≤ b && b ≤ 95

def lowerByte (b : Nat) : Nat := if 65 ≤ b && b ≤ 90 then b + 32 else b

def upperByte (b : Nat) : Nat := if 97 ≤ b && b ≤ 122 then b - 32 else b

def lowerBytes (bs : List Nat) : List Nat := bs.map lowerByte

def upperBytes (bs : List Nat) : List Nat := bs.map upperByte

/-- bytes.lstrip with no argument: drop ASCII whitespace on the left. -/
def lstripBytes (bs : List Nat) : List Nat := bs.dropWhile isWSByte

/-- Drop ASCII whitespace on the right. -/
def rstripWSBytes (bs : List Nat) : List Nat := (bs.reverse.dropWhile isWSByte).reverse

/-- bytes.strip with no argument. -/
def stripBytes (bs : List Nat) : List Nat := rstripWSBytes (lstripBytes bs)

/-- bytes.rstrip called with the two-byte argument space plus tab, as in
the header-name normalisation of _parse_headers. -/
def rstripSpTab (bs : List Nat) : List Nat :=
  (bs.reverse.dropWhile (fun b => b == 32 || b == 9)).reverse

/-- Whether the first list is an initial segment of the second. -/
def leadsWith : List Nat → List Nat → Bool
  | [], _ => true
  | _ :: _, [] => false
  | p :: ps, b :: bs => p == b && leadsWith ps bs

/-- bytes.find: index of the first occurrence of pat, none when absent
(the Python call returns -1 in that case). -/
def findPat (pat : List Nat) : List Nat → Option Nat
  | [] => if pat.isEmpty then some 0 else none
  | b :: bs => if leadsWith pat (b :: bs) then some 0 else (findPat pat bs).map (fun n => n + 1)

/-- bytes.split(sep, 1): split at the first occurrence of the byte sep;
none when sep does not occur. -/
def splitFirst (sep : Nat) : List Nat → Option (List Nat × List Nat)
  | [] => none
  | b :: bs =>
    if b == sep then some ([], bs)
    else (splitFirst sep bs).map (fun pr => (b :: pr.1, pr.2))

/-- bytes.split(None, maxsplit): split on runs of ASCII whitespace,
discarding leading whitespace, with the remainder (leading whitespace
stripped) kept whole once maxsplit separators have been consumed. -/
def splitWS (maxsplit : Nat) (bs : List Nat) : List (List Nat) :=
  match maxsplit, bs.dropWhile isWSByte with
  | _, [] => []
  | 0, bs1 => [bs1]
  | m + 1, bs1 =>
    bs1.takeWhile (fun b => !isWSByte b) :: splitWS m (bs1.dropWhile (fun b => !isWSByte b))

def natOfDigits (bs : List Nat) : Nat := bs.foldl (fun acc b => acc * 10 + (b - 48)) 0

def countDigitsPref (bs : List Nat) : Nat := (bs.takeWhile isDigitByte).length

/-- Value of a nonempty all-digit byte string, none otherwise. -/
def digitsVal (bs : List Nat) : Option Nat :=
  if bs.isEmpty then none
  else if bs.all isDigitByte then some (natOfDigits bs) else none

/-- int(value) on a byte string: surrounding ASCII whitespace is allowed,
then an optional sign and a nonempty digit run; anything else raises
ValueError, modelled as none (digit-group underscores are not modelled;
no input below contains one). -/
def pyIntOfBytes (bs : List Nat) : Option Int :=
  match stripBytes bs with
  | 43 :: rest => (digitsVal rest).map (fun n => (n : Int))
  | 45 :: rest => (digitsVal rest).map (fun n => -(n : Int))
  | s => (digitsVal s).map (fun n => (n : Int))

/-- sys.maxsize on the 64-bit CPython builds the code targets; the parser
uses it only as the distinguished value meaning no declared length. -/
def pymaxsize : Int := 9223372036854775807

/-- A Python value as far as the equality tests of _connection are
concerned: in Python 3 a bytes object and a str object are never equal,
whatever their contents. -/
inductive PyVal
  | pybytes (bs : List Nat)
  | pystr (s : String)
deriving DecidableEq

/-- Python equality between the modelled values: equal contents of the
same type, and always False across the bytes/str divide. -/
def pyEq : PyVal → PyVal → Bool
  | PyVal.pybytes a, PyVal.pybytes b => a == b
  | PyVal.pystr a, PyVal.pystr b => a == b
  | _, _ => false

/-- Python exceptions that the embedded code can raise. -/
inductive PyErr
  | httpParserError
  | invalidMethod
  | invalidStatus
  | valueErrorIncompleteFormat
  | attributeError (attr : String)
  | typeError
  | runtimeError
  | valueError
deriving DecidableEq

/-- Decidable equality of Except results, used to state theorems about
the fallible operations below. -/
instance {ε α : Type} [DecidableEq ε] [DecidableEq α] : DecidableEq (Except ε α) := fun a b =>
  match a, b with
  | Except.ok x, Except.ok y => decidable_of_iff (x = y) (by simp)
  | Except.error x, Except.error y => decidable_of_iff (x = y) (by simp)
  | Except.ok _, Except.error _ => Decidable.isFalse (by simp)
  | Except.error _, Except.ok _ => Decidable.isFalse (by simp)

/-- ParserType from parser.py. -/
inductive ParserType
  | HTTP_REQUEST
  | HTTP_RESPONSE
  | HTTP_BOTH
deriving DecidableEq

/-- The bit flags of the F enumeration in parser.py. -/
def F_CHUNKED : Nat := 1
def F_CONNECTION_KEEP_ALIVE : Nat := 2
def F_CONNECTION_CLOSE : Nat := 4
def F_CONNECTION_UPGRADE : Nat := 8
def F_TRAILING : Nat := 16
def F_UPGRADE : Nat := 32
def F_SKIPBODY : Nat := 64
def F_CONTENTLENGTH : Nat := 128

/-- One protocol callback invocation observed while feeding data. -/
inductive CB
  | on_url (target : List Nat)
  | on_status (line : List Nat)
  | on_header (name value : List Nat)
  | on_headers_complete
  | on_body (data : List Nat)
  | on_message_complete
deriving DecidableEq

/-- The mutable state of an HttpParser object: the attributes set by
HttpParser.__init__ together with the class attributes it inherits.
The attributes that no constructor path ever assigns (_buf, _chunked,
_clen, _status, _partial_body, _body and the decompression pair) are not
fields: reading any of them raises AttributeError, see parse_body. -/
structure HttpParser where
  type : ParserType
  buf : List Nat
  flags : Nat
  position : Nat
  content_length : Int
  clen_rest : Int
  method : Option (List Nat)
  version_major : Option Nat
  version_minor : Option Nat
  version : Option String
  status : Option (List Nat)
  status_code : Option Nat
  reason : Option (List Nat)
deriving DecidableEq

/-- HttpParser.__init__ with the given parser type. -/
def mkParser (t : ParserType) : HttpParser :=
  { type := t, buf := [], flags := 0, position := 0,
    content_length := pymaxsize, clen_rest := pymaxsize,
    method := none, version_major := none, version_minor := none,
    version := none, status := none, status_code := none, reason := none }

/-- A fresh HttpRequestParser. -/
def requestParser0 : HttpParser := mkParser ParserType.HTTP_REQUEST

/-- A fresh HttpResponseParser. -/
def responseParser0 : HttpParser := mkParser ParserType.HTTP_RESPONSE

def is_headers_complete (p : HttpParser) : Bool := decide (1 < p.position)

def is_message_complete (p : HttpParser) : Bool := decide (2 < p.position)

/-- HttpParser.http_message_needs_eof. For a response parser the method
reads self.status_code // 100; before a status line has been parsed that
attribute is None and Python raises TypeError, modelled as the error
case. -/
def http_message_needs_eof (p : HttpParser) : Except PyErr Bool :=
  if p.type = ParserType.HTTP_REQUEST then Except.ok false
  else
    match p.status_code with
    | none => Except.error PyErr.typeError
    | some sc =>
      if sc / 100 == 1 || sc == 204 || sc == 304 || (p.flags &&& F_SKIPBODY) != 0 then
        Except.ok false
      else if (p.flags &&& F_CHUNKED) != 0 || p.content_length != pymaxsize then
        Except.ok false
      else Except.ok true

/-- HttpParser.should_keep_alive, exactly as written: when both version
numbers are positive a set close flag forces False; OTHERWISE a set
keep-alive flag forces False (the source tests the flag itself, not its
negation); in the remaining cases the result is the negation of
http_message_needs_eof. Comparing None with an int raises TypeError. -/
def should_keep_alive (p : HttpParser) : Except PyErr Bool :=
  match p.version_major, p.version_minor with
  | some maj, some mi =>
    if 0 < maj && 0 < mi then
      if (p.flags &&& F_CONNECTION_CLOSE) != 0 then Except.ok false
      else (http_message_needs_eof p).map (fun b => !b)
    else if (p.flags &&& F_CONNECTION_KEEP_ALIVE) != 0 then Except.ok false
    else (http_message_needs_eof p).map (fun b => !b)
  | _, _ => Except.error PyErr.typeError

/-- VERSION_RE is HTTP/(backslash-d+).(backslash-d+) where the dot is the
unescaped any-byte-except-newline pattern. This helper resolves the
backtracking of the first greedy digit group: it tries the candidate
length of group one from the longest digit run downwards; a candidate
fits when some byte other than a newline follows the group and at least
one digit follows that byte. -/
def versionSplit (rest : List Nat) : Nat → Option (Nat × Nat)
  | 0 => none
  | g + 1 =>
    match rest.get? (g + 1) with
    | some c =>
      if c != 10 then
        let tail := List.drop (g + 2) rest
        let d2 := countDigitsPref tail
        if 1 ≤ d2 then
          some (natOfDigits (List.take (g + 1) rest), natOfDigits (List.take d2 tail))
        else versionSplit rest g
      else versionSplit rest g
    | none => versionSplit rest g

/-- VERSION_RE.match: the major and minor version numbers, none when the
pattern does not match at the start of the input. -/
def versionRe (bs : List Nat) : Option (Nat × Nat) :=
  if leadsWith (bstr "HTTP/") bs then
    let rest := List.drop 5 bs
    versionSplit rest (countDigitsPref rest)
  else none

/-- STATUS_RE.match for (backslash-d{3})backslash-s*(backslash-w*):
exactly three leading digits, optional whitespace, then the longest run
of word bytes as the reason group. -/
def statusRe (bs : List Nat) : Option (Nat × List Nat) :=
  if 3 ≤ bs.length && (List.take 3 bs).all isDigitByte then
    let rest := (List.drop 3 bs).dropWhile isWSByte
    some (natOfDigits (List.take 3 bs), rest.takeWhile isWordByte)
  else none

/-- METHOD_RE.match for [A-Z0-9$-_.]{3,20}: succeeds exactly when the
first three bytes exist and lie in the class. -/
def methodRe (bs : List Nat) : Bool := 3 ≤ bs.length && (List.take 3 bs).all isMethodByte

/-- HttpRequestParser.parse_first_line. The method is stored and the URL
callback fired before the version is checked, so both effects persist
when the version pattern fails and HttpParserError is raised. -/
def parse_first_line_request (p : HttpParser) (line : List Nat) :
    HttpParser × List CB × Option PyErr :=
  match splitWS 2 line with
  | [b0, b1, b2] =>
    if !(methodRe b0) then (p, [], some PyErr.invalidMethod)
    else
      let p1 := { p with method := some (upperBytes b0) }
      match versionRe b2 with
      | none => (p1, [CB.on_url b1], some PyErr.httpParserError)
      | some (maj, mi) =>
        ({ p1 with version_major := some maj, version_minor := some mi,
                   version := some (toString maj ++ "." ++ toString mi) },
         [CB.on_url b1], none)
  | _ => (p, [], some PyErr.httpParserError)

/-- HttpResponseParser.parse_first_line. When STATUS_RE does not match,
the source raises HttpParserInvalidStatusError with the message built by
the percent format "Invalid status %" applied to the status bytes; that
format string is incomplete (the percent sign has no conversion), so in
Python the formatting itself raises ValueError before the intended
exception object is even constructed. The error case is therefore
valueErrorIncompleteFormat, not invalidStatus. -/
def parse_first_line_response (p : HttpParser) (line : List Nat) :
    HttpParser × List CB × Option PyErr :=
  match splitWS 1 line with
  | [b0, b1] =>
    match versionRe b0 with
    | none => (p, [], some PyErr.httpParserError)
    | some (maj, mi) =>
      match statusRe b1 with
      | none => (p, [], some PyErr.valueErrorIncompleteFormat)
      | some (code, rsn) =>
        ({ p with version_major := some maj, version_minor := some mi,
                  version := some (toString maj ++ "." ++ toString mi),
                  status := some b1, status_code := some code, reason := some rsn },
         [CB.on_status b1], none)
  | _ => (p, [], some PyErr.httpParserError)

/-- Dispatch of self.parse_first_line: the request and response
subclasses each define it; the base class (type HTTP_BOTH) defines none,
so calling it there raises AttributeError. -/
def parse_first_line (p : HttpParser) (line : List Nat) :
    HttpParser × List CB × Option PyErr :=
  match p.type with
  | ParserType.HTTP_REQUEST => parse_first_line_request p line
  | ParserType.HTTP_RESPONSE => parse_first_line_response p line
  | ParserType.HTTP_BOTH => (p, [], some (PyErr.attributeError "parse_first_line"))

/-- HttpParser._connection (parser.py lines 230-237). The source lowers
the bytes value and compares it with the three text literals using ==;
since a bytes object never equals a str object in Python 3, every
comparison is False for every value and no flag is ever set. The PyVal
equality keeps the two operand types visible. -/
def _connection (p : HttpParser) (value : List Nat) : HttpParser :=
  let v := lowerBytes value
  if pyEq (PyVal.pybytes v) (PyVal.pystr "keep-alive") then
    { p with flags := p.flags ||| F_CONNECTION_KEEP_ALIVE }
  else if pyEq (PyVal.pybytes v) (PyVal.pystr "close") then
    { p with flags := p.flags ||| F_CONNECTION_CLOSE }
  else if pyEq (PyVal.pybytes v) (PyVal.pystr "upgrade") then
    { p with flags := p.flags ||| F_CONNECTION_UPGRADE }
  else p

/-- The state update a single recognised header performs inside the loop
of _parse_headers: the Connection dispatch, the Content-Length parse
(ValueError means the header is skipped; a negative value resets the
length to the sys.maxsize sentinel) and the chunked transfer-encoding
flag. The buffer is untouched. -/
def headerEffect (p : HttpParser) (lower vl1 : List Nat) : HttpParser :=
  if lower == bstr "connection" then _connection p vl1
  else if lower == bstr "content-length" then
    match pyIntOfBytes vl1 with
    | none => p
    | some n =>
      if n < 0 then { p with content_length := pymaxsize }
      else { p with content_length := n }
  else if lower == bstr "transfer-encoding" then
    if lowerBytes vl1 == bstr "chunked" then { p with flags := p.flags ||| F_CHUNKED }
    else p
  else p

/-- HttpParser._parse_headers (lines 196-228): consume CRLF-terminated
lines from the buffer; a missing CRLF returns with the state as is (the
Python return False); an empty line ends the block, reinitialises
clen_rest from content_length, moves the position to 2 and fires the
headers-complete callback (the Python function then falls off its end,
returning None); a line without a colon is skipped; otherwise the header
callback fires with the trimmed name and value before the recognised
headers update the state. Note that both Python return values, False and
None, are falsy, which is what feed_data tests. The fuel argument bounds
the number of loop iterations in this call: every iteration that recurses
removes at least two bytes (the CRLF) from the buffer, so the buffer
length plus one, which the caller passes, always suffices and the
zero-fuel case is unreachable. -/
def parse_headers : Nat → HttpParser → HttpParser × List CB
  | 0, p => (p, [])
  | fuel + 1, p =>
    match findPat [13, 10] p.buf with
    | none => (p, [])
    | some idx =>
      if idx == 0 then
        ({ p with buf := List.drop (idx + 2) p.buf,
                  clen_rest := p.content_length, position := 2 },
         [CB.on_headers_complete])
      else
        match splitFirst 58 (List.take idx p.buf) with
        | none => parse_headers fuel { p with buf := List.drop (idx + 2) p.buf }
        | some (nm, vl) =>
          let vl1 := lstripBytes vl
          let nm1 := stripBytes (rstripSpTab nm)
          let r := parse_headers fuel
            { headerEffect { p with buf := List.drop (idx + 2) p.buf } (lowerBytes nm1) vl1 with
              buf := List.drop (idx + 2) p.buf }
          (r.1, CB.on_header nm1 vl1 :: r.2)

/-- HttpParser._parse_body (lines 239-272). Its first statement joins
self._buf, but no reachable code ever assigns the _buf attribute before
this read: __init__ initialises self.buf (a different attribute) and the
only assignments to _buf sit later in this same function, behind the
failing read. In Python the first statement therefore raises
AttributeError unconditionally, and the rest of the function body is
unreachable. -/
def parse_body (p : HttpParser) : HttpParser × List CB × PyErr :=
  (p, [], PyErr.attributeError "_buf")

/-- How a feed_data run ended: a Python return, a propagated exception,
or fuel exhaustion, meaning the while loop completed the given number of
iterations without reaching any return. -/
inductive FeedExit
  | done
  | fail (e : PyErr)
  | fuelOut
deriving DecidableEq

/-- Result of one feed_data call: the final object state, the callback
trace, and how the call ended. -/
structure FeedResult where
  state : HttpParser
  events : List CB
  exit : FeedExit
deriving DecidableEq

/-- The while True loop of HttpParser.feed_data (lines 173-194), one
fuel unit per iteration. In the start state the first line is parsed
once a CRLF is buffered (the position moves to 1 before parse_first_line
runs, and the buffer is only consumed afterwards, so an exception leaves
the line buffered). Before the headers are complete one _parse_headers
call is made and the loop then always breaks, because both possible
_parse_headers results (False and None) are falsy. Before the message is
complete _parse_body is called, which raises. In the complete state no
branch of the loop body applies and the loop repeats with nothing
changed, so the iteration never ends: every fuel budget is exhausted. -/
def feedLoop : Nat → HttpParser → List CB → FeedResult
  | 0, p, evs => ⟨p, evs, FeedExit.fuelOut⟩
  | Nat.succ fuel, p, evs =>
    if p.position == 0 then
      match findPat [13, 10] p.buf with
      | none => ⟨p, evs, FeedExit.done⟩
      | some idx =>
        let r := parse_first_line { p with position := 1 } (List.take idx p.buf)
        match r.2.2 with
        | some e => ⟨r.1, evs ++ r.2.1, FeedExit.fail e⟩
        | none => feedLoop fuel { r.1 with buf := List.drop (idx + 2) r.1.buf } (evs ++ r.2.1)
    else if !(is_headers_complete p) then
      let r := parse_headers (p.buf.length + 1) p
      ⟨r.1, evs ++ r.2, FeedExit.done⟩
    else if !(is_message_complete p) then
      let r := parse_body p
      ⟨r.1, evs ++ r.2.1, FeedExit.fail r.2.2⟩
    else
      feedLoop fuel p evs

/-- HttpParser.feed_data (lines 163-194): empty input marks the message
complete (firing the message-complete callback unless it already is) and
returns; nonempty input is appended to the buffer and the parse loop
runs. -/
def feed_data (fuel : Nat) (p : HttpParser) (data : List Nat) : FeedResult :=
  if data.isEmpty then
    if !(is_message_complete p) then
      ⟨{ p with position := 3 }, [CB.on_message_complete], FeedExit.done⟩
    else ⟨p, [], FeedExit.done⟩
  else
    feedLoop fuel { p with buf := p.buf ++ data } []

/-- The concrete request of testable property 3: a complete GET request
with a declared five-byte body. -/
def c1input : List Nat :=
  bstr "GET /x HTTP/1.1\r\nHost: a\r\nContent-Length: 5\r\n\r\nhello"

def c1run : FeedResult := feed_data 20 requestParser0 c1input

def c2run10 : FeedResult :=
  feed_data 20 responseParser0 (bstr "HTTP/1.0 200 OK\r\nContent-Length: 5\r\n\r\n")

def c2run11 : FeedResult :=
  feed_data 20 responseParser0 (bstr "HTTP/1.1 200 OK\r\nContent-Length: 5\r\n\r\n")

def c3run : FeedResult := feed_data 20 responseParser0 (bstr "HTTP/1.1 XYZ\r\n")

def c4run : FeedResult :=
  feed_data 20 requestParser0 (bstr "GET /x HTTP/1.1\r\nConnection: close\r\n\r\n")

/-- A request parser that has been marked message-complete by the
designated empty feed. -/
def completedReqParser : HttpParser := (feed_data 1 requestParser0 []).state

/-- The argument shape a handler is invoked with by Event.fire: the
error keyword, the data keyword, or no extra argument; the error takes
precedence over the data. -/
inductive CallArg
  | withExc (e : Nat)
  | withData (d : Nat)
  | plain
deriving DecidableEq

/-- One observable action of Event.fire: a handler call, or the
resolution of the pending waiter with an exception or with the firing
owner. Handlers, waiters, owners, errors and data are opaque and named
by numbers. -/
inductive EvCall
  | handler (cb : Nat) (arg : CallArg)
  | waiterException (w : Nat) (e : Nat)
  | waiterResult (w : Nat) (owner : Nat)
deriving DecidableEq

/-- The state of an Event object from events.py: its name, the onetime
flag, the owner reference _self (None once a one-time event has fired),
the handler list _handlers (None until the first bind) and the pending
waiter _waiter. -/
structure Event where
  name : String
  onetime : Bool
  _self : Option Nat
  handlers : Option (List Nat)
  waiter : Option Nat
deriving DecidableEq

/-- Event.bind (events.py lines 37-46): raises RuntimeError when the
owner reference is gone, that is when a one-time event has already
fired (or the event was built with no owner); otherwise appends the
callback, creating the list on first use. -/
def Event.bind (e : Event) (cb : Nat) : Except PyErr Event :=
  match e._self with
  | none => Except.error PyErr.runtimeError
  | some _ =>
    match e.handlers with
    | none => Except.ok { e with handlers := some [cb] }
    | some hs => Except.ok { e with handlers := some (hs ++ [cb]) }

/-- Event.fire (events.py lines 63-88): a no-op when the owner reference
is gone. Otherwise the handler list is snapshotted; a one-time event
clears its handlers and owner before any handler runs; each handler from
the snapshot is called with the error, else the data, else no extra
argument; a pending waiter is resolved with the exception or with the
owner and then cleared. The returned pair is the new event state and the
trace of calls made. -/
def Event.fire (e : Event) (exc data : Option Nat) : Event × List EvCall :=
  match e._self with
  | none => (e, [])
  | some o =>
    let hs := e.handlers
    let e1 := if e.onetime then { e with handlers := none, _self := none } else e
    let calls :=
      match hs with
      | none => []
      | some l =>
        if l.isEmpty then []
        else
          match exc with
          | some x => l.map (fun h => EvCall.handler h (CallArg.withExc x))
          | none =>
            match data with
            | some d => l.map (fun h => EvCall.handler h (CallArg.withData d))
            | none => l.map (fun h => EvCall.handler h CallArg.plain)
    match e1.waiter with
    | some w =>
      match exc with
      | some x => ({ e1 with waiter := none }, calls ++ [EvCall.waiterException w x])
      | none => ({ e1 with waiter := none }, calls ++ [EvCall.waiterResult w o])
    | none => (e1, calls)

/-- A one-time event bound to two handlers with a pending waiter, used
to instantiate the one-time-event theorem. -/
def e0 : Event :=
  { name := "start", onetime := true, _self := some 1,
    handlers := some [10, 11], waiter := some 99 }

/-- A value forwarded in the constructor arguments of a spawned actor:
a proxy handle of the object with the given id (x.proxy), the object
itself, or any other opaque value. -/
inductive PyObj
  | proxyOf (id : Nat)
  | actorRef (id : Nat)
  | obj (tag : Nat)
deriving DecidableEq

/-- The monitor argument of concurrency.py: its identity, whether it is
the arbiter (the root supervising actor), and the identity of its own
arbiter attribute. -/
structure Monitor where
  id : Nat
  isArbiter : Bool
  arbiterId : Nat
deriving DecidableEq

/-- Python dict lookup on the modelled keyword arguments. -/
def dictGet (kv : List (String × PyObj)) (k : String) : Option PyObj :=
  match kv with
  | [] => none
  | (k1, v1) :: rest => if k1 == k then some v1 else dictGet rest k

/-- Python dict assignment: replace the existing binding or append. -/
def dictSet (kv : List (String × PyObj)) (k : String) (v : PyObj) :
    List (String × PyObj) :=
  match kv with
  | [] => [(k, v)]
  | (k1, v1) :: rest => if k1 == k then (k, v) :: rest else (k1, v1) :: dictSet rest k v

/-- dict.pop(key, None): the removed value, if any, and the remaining
dict. -/
def dictPop (kv : List (String × PyObj)) (k : String) :
    Option PyObj × List (String × PyObj) :=
  (dictGet kv k, kv.filter (fun pr => pr.1 != k))

/-- The concurrency descriptor built by Concurrency.make: the assigned
id, the hosting kind, the opaque command set and actor class, the
timeout, the loglevel popped out of the keyword arguments, the remaining
keyword arguments, and whether the actor instance was constructed
eagerly (only the in-process monitor variant does that). -/
structure ConcurrencyDesc where
  aid : String
  impl : String
  commands_set : Nat
  timeout : Int
  actor_class : Nat
  loglevel : Option PyObj
  a_kwargs : List (String × PyObj)
  actorConstructed : Bool
deriving DecidableEq

/-- The shared part of Concurrency.make (concurrency.py lines 45-62)
before the process_actor dispatch: id assignment (the reserved name for
the arbiter, otherwise the first 8 characters of a generated unique id,
passed in here as genId), the loglevel pop, and the field assignments. -/
def concMakeCommon (kind : String) (actor_class : Nat) (timeout : Int) (monitor : Monitor)
    (aid : String) (commands_set : Nat) (params : List (String × PyObj))
    (genId : String) : ConcurrencyDesc :=
  let aid1 :=
    if aid == "" then
      if monitor.isArbiter then "arbiter" else String.mk (genId.toList.take 8)
    else aid
  let lp := dictPop params "loglevel"
  { aid := aid1, impl := kind, commands_set := commands_set, timeout := timeout,
    actor_class := actor_class, loglevel := lp.1, a_kwargs := lp.2,
    actorConstructed := false }

/-- Concurrency.process_actor (lines 74-82), used by the thread and
process variants: the arbiter reference is the monitor itself when the
monitor is the arbiter and the monitor's own arbiter attribute
otherwise; proxy handles of the arbiter and of the monitor are stored
under the arbiter and monitor keys of the constructor arguments. -/
def process_actor (d : ConcurrencyDesc) (monitor : Monitor) : ConcurrencyDesc :=
  let arb := if monitor.isArbiter then monitor.id else monitor.arbiterId
  let kw := dictSet (dictSet d.a_kwargs "arbiter" (PyObj.proxyOf arb)) "monitor" (PyObj.proxyOf monitor.id)
  { d with a_kwargs := kw }

/-- MonitorConcurrency.process_actor (lines 88-91): stores the monitor
object itself (not a proxy) under the arbiter key only, forces the
timeout to zero, and constructs the actor instance immediately; no
monitor key is written. -/
def process_actor_monitor (d : ConcurrencyDesc) (monitor : Monitor) : ConcurrencyDesc :=
  { d with a_kwargs := dictSet d.a_kwargs "arbiter" (PyObj.actorRef monitor.id),
           timeout := 0, actorConstructed := true }

/-- The concurrency factory function (lines 17-29): dispatch on the kind
string to the monitor, thread or process variant, each running the
shared make body followed by its process_actor; any other kind raises
ValueError. -/
def concurrency (kind : String) (actor_class : Nat) (timeout : Int) (monitor : Monitor)
    (aid : String) (commands_set : Nat) (params : List (String × PyObj))
    (genId : String) : Except PyErr ConcurrencyDesc :=
  if kind = "monitor" then
    Except.ok (process_actor_monitor
      (concMakeCommon kind actor_class timeout monitor aid commands_set params genId) monitor)
  else if kind = "thread" then
    Except.ok (process_actor
      (concMakeCommon kind actor_class timeout monitor aid commands_set params genId) monitor)
  else if kind = "process" then
    Except.ok (process_actor
      (concMakeCommon kind actor_class timeout monitor aid commands_set params genId) monitor)
  else Except.error PyErr.valueError

/-- Whether the factory call succeeded. -/
def exceptOk : Except PyErr ConcurrencyDesc → Bool
  | Except.ok _ => true
  | Except.error _ => false

/-- The forwarded constructor arguments of a successful factory call. -/
def exceptKwargs : Except PyErr ConcurrencyDesc → List (String × PyObj)
  | Except.ok d => d.a_kwargs
  | Except.error _ => []

/-- A non-root monitor (id 3) whose own arbiter attribute is object 9. -/
def c7mon : Monitor := { id := 3, isArbiter := false, arbiterId := 9 }

def c7run : Except PyErr ConcurrencyDesc :=
  concurrency "monitor" 7 30 c7mon "aid1" 0 [] "genid12345"

/-- ActorThread.terminate (concurrency.py lines 121-124), exactly as
written: request the forced stop, then sleep 0.1 seconds WHILE the stop
result reports called (the source tests result.called, not its
negation). The deferred is modelled by the boolean it reports at each
successive poll; the value is the poll index at which terminate
returned, or none when the given number of polls was exhausted without
returning. -/
def terminate (called : Nat → Bool) : Nat → Nat → Option Nat
  | 0, _ => none
  | fuel + 1, step => if called step then terminate called fuel (step + 1) else some step

/-- A stop result that is already delivered at every poll. -/
def alwaysDelivered : Nat → Bool := fun _ => true

/-- A stop result not yet delivered when terminate starts and delivered
from the fifth poll on. -/
def deliveredAt5 : Nat → Bool := fun n => decide (5 ≤ n)

/-- One recorded action of TestRequest.run_test: a call of
run_test_function on the named hook or test method, a recorded skip, a
failure or error recorded through add_failure, or a recorded success. -/
inductive RunEv
  | invoke (name : String)
  | addSkip (reason : String)
  | addFailureOrError (name : String)
  | addSuccess
deriving DecidableEq

/-- A test case instance as run_test observes it: the skip markers and
skip reasons on the class and on the test method (an absent reason reads
as the empty string, the getattr default), the test method name, which
optional hooks exist, and for each step whether its captured outcome is
a failure (that is, whether add_failure returns True for it). -/
structure TestCaseObj where
  classSkip : Bool
  methodSkip : Bool
  classSkipWhy : String
  methodSkipWhy : String
  testMethodName : String
  hasPreSetup : Bool
  hasPostTeardown : Bool
  preSetupFails : Bool
  setUpFails : Bool
  methodFails : Bool
  tearDownFails : Bool
  postTeardownFails : Bool
deriving DecidableEq

/-- The trace of one scheduled step: the hook is invoked and, when its
captured outcome is a failure, add_failure records it. -/
def stepEvs (nm : String) (fails : Bool) : List RunEv :=
  RunEv.invoke nm :: (if fails then [RunEv.addFailureOrError nm] else [])

/-- TestRequest.run_test (case.py lines 190-247). When the class or the
test method carries the skip marker, the recorded reason is the OR of
the class reason and the method reason in that order (so a nonempty
class reason wins), a StopIteration is raised and caught by the
function itself, the success flag becomes False, and nothing else runs.
Otherwise the optional pre-setup step runs and resets the success flag;
on success setUp runs, and only if setUp did not fail the test method
and then tearDown run; the optional post-teardown step always runs; a
success is recorded exactly when the final success flag is still True. -/
def run_test (t : TestCaseObj) : List RunEv :=
  if t.classSkip || t.methodSkip then
    [RunEv.addSkip (if t.classSkipWhy != "" then t.classSkipWhy else t.methodSkipWhy)]
  else
    let preEvs := if t.hasPreSetup then stepEvs "_pre_setup" t.preSetupFails else []
    let s1 := if t.hasPreSetup then !t.preSetupFails else true
    let mainEvs :=
      if s1 then
        if t.setUpFails then stepEvs "setUp" true
        else
          stepEvs "setUp" false ++ stepEvs t.testMethodName t.methodFails ++
            stepEvs "tearDown" t.tearDownFails
      else []
    let s2 :=
      if s1 then
        if t.setUpFails then false else !t.methodFails && !t.tearDownFails
      else false
    let postEvs := if t.hasPostTeardown then stepEvs "_post_teardown" t.postTeardownFails else []
    let s3 := if t.hasPostTeardown && t.postTeardownFails then false else s2
    preEvs ++ mainEvs ++ postEvs ++ (if s3 then [RunEv.addSuccess] else [])

/-- A test case whose class and test method are both marked skipped,
each with its own declared reason. -/
def c5skipBoth : TestCaseObj :=
  { classSkip := true, methodSkip := true,
    classSkipWhy := "class reason", methodSkipWhy := "not ready",
    testMethodName := "test_x",
    hasPreSetup := false, hasPostTeardown := false,
    preSetupFails := false, setUpFails := false, methodFails := false,
    tearDownFails := false, postTeardownFails := false }

/-- A test case whose method alone is marked skipped with a reason and
whose class declares none. -/
def c5skipMethod : TestCaseObj :=
  { classSkip := false, methodSkip := true,
    classSkipWhy := "", methodSkipWhy := "not ready",
    testMethodName := "test_y",
    hasPreSetup := false, hasPostTeardown := false,
    preSetupFails := false, setUpFails := false, methodFails := false,
    tearDownFails := false, postTeardownFails := false }

/-- An empty feed on a message-complete parser is a complete no-op. -/
theorem feed_empty_complete (f : Nat) (q : HttpParser) (hq : is_message_complete q = true) :
    feed_data f q [] = ⟨q, [], FeedExit.done⟩ := by
  unfold feed_data
  rw [hq]
  rfl

/-- After any empty feed the parser is message-complete. -/
theorem feed_empty_completes (f : Nat) (p : HttpParser) :
    is_message_complete (feed_data f p []).state = true := by
  cases hb : is_message_complete p
  · unfold feed_data
    rw [hb]
    rfl
  · unfold feed_data
    rw [hb]
    exact hb

/-- In the message-complete state no branch of the feed_data loop body
applies, so one iteration changes nothing and every fuel budget runs
out. -/
theorem feedLoop_stuck (fuel : Nat) (p : HttpParser) (evs : List CB) (h : p.position = 3) :
    feedLoop fuel p evs = ⟨p, evs, FeedExit.fuelOut⟩ := by
  induction fuel with
  | zero => rfl
  | succ n ih => simp [feedLoop, h, is_headers_complete, is_message_complete, ih]

/-- Looking up the key just stored by a dict assignment yields the
stored value. -/
theorem dictGet_dictSet_same (kv : List (String × PyObj)) (k : String) (v : PyObj) :
    dictGet (dictSet kv k v) k = some v := by
  induction kv with
  | nil => simp [dictGet, dictSet]
  | cons hd tl ih =>
    obtain ⟨k1, v1⟩ := hd
    cases hbeq : (k1 == k) <;> simp [dictGet, dictSet, hbeq, ih]

/-- A dict assignment leaves the lookup of every other key unchanged. -/
theorem dictGet_dictSet_ne (kv : List (String × PyObj)) (k1 k2 : String) (v : PyObj)
    (h : (k1 == k2) = false) :
    dictGet (dictSet kv k1 v) k2 = dictGet kv k2 := by
  induction kv with
  | nil => simp [dictGet, dictSet, h]
  | cons hd tl ih =>
    obtain ⟨ka, va⟩ := hd
    cases hbeq : (ka == k1) with
    | true =>
      have hka : ka = k1 := by simpa using hbeq
      subst hka
      simp [dictGet, dictSet, h]
    | false => simp [dictGet, dictSet, hbeq, ih]

/-- C1: feeding the complete request bytes of the claim to a request
parser records method GET and version 1.1 and fires the URL callback,
the header callbacks (among them Content-Length with value 5) and the
headers-complete callback, but the call then returns with the five body
bytes still buffered: no body callback and no message-complete callback
is ever invoked, because feed_data breaks out of its loop on the falsy
_parse_headers result, and any further nonempty feed raises
AttributeError on the unassigned _buf attribute inside _parse_body. The
body delivery promised by the claim therefore never happens. -/
theorem c1_request_body_never_delivered :
    c1run.state.method = some (bstr "GET") ∧
    c1run.state.version_major = some 1 ∧
    c1run.state.version_minor = some 1 ∧
    c1run.state.version = some "1.1" ∧
    c1run.events = [CB.on_url (bstr "/x"), CB.on_header (bstr "Host") (bstr "a"),
                    CB.on_header (bstr "Content-Length") (bstr "5"), CB.on_headers_complete] ∧
    c1run.state.content_length = 5 ∧
    c1run.exit = FeedExit.done ∧
    c1run.state.buf = bstr "hello" ∧
    CB.on_body (bstr "hello") ∉ c1run.events ∧
    CB.on_message_complete ∉ c1run.events ∧
    is_message_complete c1run.state = false ∧
    (feed_data 20 c1run.state (bstr "!")).exit = FeedExit.fail (PyErr.attributeError "_buf") := by
  decide

/-- C2: after parsing the HTTP/1.0 response status line and a header
block containing only Content-Length (no Connection header at all),
should_keep_alive returns True, because the elif branch of the source
tests the keep-alive flag itself instead of its negation and therefore
never returns False for a plain HTTP/1.0 message with a declared
length; the claim demands False here. The HTTP/1.1 half of the claim
(no close flag, declared content-length, result True) does hold and is
recorded in the last conjunct. -/
theorem c2_keep_alive_http10_code_bug :
    c2run10.exit = FeedExit.done ∧
    c2run10.state.version_major = some 1 ∧
    c2run10.state.version_minor = some 0 ∧
    c2run10.events = [CB.on_status (bstr "200 OK"),
                      CB.on_header (bstr "Content-Length") (bstr "5"), CB.on_headers_complete] ∧
    (c2run10.state.flags &&& F_CONNECTION_KEEP_ALIVE) = 0 ∧
    (c2run10.state.flags &&& F_CONNECTION_CLOSE) = 0 ∧
    should_keep_alive c2run10.state = Except.ok true ∧
    should_keep_alive c2run11.state = Except.ok true := by
  decide

/-- C3: feeding the status line of the claim to a response parser fails,
and afterwards the headers-complete callback has not fired and
is_headers_complete is false, as the claim states; but the error is not
the InvalidStatus error: evaluating the percent format of the intended
error message raises ValueError (incomplete format) first, so that is
what the caller sees. -/
theorem c3_invalid_status_value_error :
    c3run.exit = FeedExit.fail PyErr.valueErrorIncompleteFormat ∧
    c3run.exit ≠ FeedExit.fail PyErr.invalidStatus ∧
    c3run.events = [] ∧
    CB.on_headers_complete ∉ c3run.events ∧
    is_headers_complete c3run.state = false ∧
    c3run.state.position = 1 := by
  decide

/-- C4: _connection is the identity on the parser state for every value,
because it compares a bytes object with str literals, which is always
False in Python 3; in particular a parsed header block containing
Connection: close fires the header callback but leaves the flag set at
zero, so the CONNECTION_CLOSE flag the claim requires is never set. -/
theorem c4_connection_flags_never_set :
    (∀ (p : HttpParser) (value : List Nat), _connection p value = p) ∧
    c4run.events = [CB.on_url (bstr "/x"),
                    CB.on_header (bstr "Connection") (bstr "close"), CB.on_headers_complete] ∧
    c4run.state.flags = 0 ∧
    (c4run.state.flags &&& F_CONNECTION_CLOSE) = 0 := by
  refine ⟨fun p value => rfl, ?_, ?_, ?_⟩ <;> decide

/-- C5 counterexample: a test case whose class and method are both
marked skipped, the class with reason "class reason" and the method with
reason "not ready", records the class-level reason: the source computes
the reason as the class attribute or-else the method attribute, so the
class-level reason takes precedence, contradicting the claimed
method-level precedence. -/
theorem c5_skip_reason_counterexample :
    run_test c5skipBoth = [RunEv.addSkip "class reason"] ∧
    run_test c5skipBoth ≠ [RunEv.addSkip "not ready"] := by
  decide

/-- C5 amended: for every test case carrying the skip marker on its
class or its test method, run_test records exactly one skip whose reason
is the class-level reason when that is nonempty and the method-level
reason otherwise, invokes no hook and no test method, and records no
success. -/
theorem c5_skip_amended (t : TestCaseObj)
    (h : t.classSkip = true ∨ t.methodSkip = true) :
    run_test t = [RunEv.addSkip (if t.classSkipWhy != "" then t.classSkipWhy else t.methodSkipWhy)] ∧
    (∀ nm, RunEv.invoke nm ∉ run_test t) ∧
    RunEv.addSuccess ∉ run_test t := by
  have hc : (t.classSkip || t.methodSkip) = true := by
    rcases h with h | h <;> simp [h]
  refine ⟨?_, ?_, ?_⟩ <;> simp [run_test, hc]

/-- C5 witness: a test method marked skipped with reason "not ready" on
a class declaring no reason records exactly that skip. -/
theorem c5_skip_amended_witness :
    run_test c5skipMethod = [RunEv.addSkip "not ready"] := by
  have h := (c5_skip_amended c5skipMethod (Or.inr rfl)).1
  simpa [c5skipMethod] using h

/-- C6: for every one-time event, firing a second time invokes no
handler and resolves no waiter (the trace of the second fire is empty
and the state does not change), binding after the first fire fails with
the RuntimeError that bind raises for an already-fired event (the
InvalidState failure of the specification), and binding before the
first fire appends the callback to the handler list. -/
theorem c6_one_time_event (e : Event) (exc data exc2 data2 : Option Nat) (cb : Nat)
    (h : e.onetime = true) :
    Event.fire (Event.fire e exc data).1 exc2 data2 = ((Event.fire e exc data).1, []) ∧
    Event.bind (Event.fire e exc data).1 cb = Except.error PyErr.runtimeError ∧
    (e._self ≠ none →
      Event.bind e cb = Except.ok { e with handlers := some (e.handlers.getD [] ++ [cb]) }) := by
  cases e with
  | mk nm ot slf hnd wtr =>
    cases ot with
    | false => exact absurd h (by simp)
    | true =>
      cases slf with
      | none =>
        refine ⟨rfl, rfl, ?_⟩
        intro h2
        simp at h2
      | some o =>
        cases wtr <;> cases exc <;> cases hnd <;>
          exact ⟨rfl, rfl, fun _ => rfl⟩

/-- C6 witness: the concrete one-time event e0 (owner 1, handlers 10
and 11, waiter 99) satisfies the one-time-event theorem. -/
theorem c6_one_time_event_witness :
    Event.fire (Event.fire e0 none none).1 none none = ((Event.fire e0 none none).1, []) ∧
    Event.bind (Event.fire e0 none none).1 5 = Except.error PyErr.runtimeError ∧
    Event.bind e0 5 = Except.ok { e0 with handlers := some (e0.handlers.getD [] ++ [5]) } := by
  have h := c6_one_time_event e0 none none none none 5 rfl
  exact ⟨h.1, h.2.1, h.2.2 (by decide)⟩

/-- C7 counterexample: creating a descriptor with the valid kind monitor
forwards constructor arguments that contain no monitor key at all, and
whose arbiter entry is the monitor object itself rather than a proxy
handle, so the claim fails for the monitor kind. -/
theorem c7_monitor_kind_counterexample :
    c7run = Except.ok { aid := "aid1", impl := "monitor", commands_set := 0, timeout := 0,
                        actor_class := 7, loglevel := none,
                        a_kwargs := [("arbiter", PyObj.actorRef 3)],
                        actorConstructed := true } ∧
    dictGet (exceptKwargs c7run) "monitor" = none ∧
    dictGet (exceptKwargs c7run) "arbiter" = some (PyObj.actorRef 3) := by
  decide

/-- C7 amended: for every descriptor produced with kind thread or
process, the forwarded constructor arguments contain proxy handles for
both the arbiter and the owning monitor, the arbiter reference being
the monitor itself when it is the root supervising actor and the
monitor's own arbiter reference otherwise. -/
theorem c7_proxy_injection_amended (kind : String) (acls : Nat) (tmo : Int) (m : Monitor)
    (aid : String) (cs : Nat) (params : List (String × PyObj)) (gid : String)
    (h : kind = "thread" ∨ kind = "process") :
    exceptOk (concurrency kind acls tmo m aid cs params gid) = true ∧
    dictGet (exceptKwargs (concurrency kind acls tmo m aid cs params gid)) "arbiter"
      = some (PyObj.proxyOf (if m.isArbiter then m.id else m.arbiterId)) ∧
    dictGet (exceptKwargs (concurrency kind acls tmo m aid cs params gid)) "monitor"
      = some (PyObj.proxyOf m.id) := by
  rcases h with rfl | rfl <;>
    refine ⟨rfl, ?_, ?_⟩ <;>
      simp [concurrency, process_actor, exceptKwargs, dictGet_dictSet_same,
            dictGet_dictSet_ne]

/-- C7 witness: spawning a thread-hosted actor under the non-root
monitor c7mon injects the proxy of its arbiter (object 9) and the proxy
of the monitor itself (object 3). -/
theorem c7_proxy_injection_witness :
    exceptOk (concurrency "thread" 7 30 c7mon "a" 0 [] "genid12345") = true ∧
    dictGet (exceptKwargs (concurrency "thread" 7 30 c7mon "a" 0 [] "genid12345")) "arbiter"
      = some (PyObj.proxyOf 9) ∧
    dictGet (exceptKwargs (concurrency "thread" 7 30 c7mon "a" 0 [] "genid12345")) "monitor"
      = some (PyObj.proxyOf 3) := by
  have h := c7_proxy_injection_amended "thread" 7 30 c7mon "a" 0 [] "genid12345" (Or.inl rfl)
  simpa [c7mon] using h

/-- C8: ActorThread.terminate sleeps WHILE the stop result reports
called, so it does the opposite of the claimed wait-until-delivered: a
stop result that is already delivered keeps it polling forever (no poll
budget suffices), and a stop result that is not yet delivered at the
first poll makes it return immediately, at poll 0, before delivery. -/
theorem c8_terminate_inverted_wait :
    (∀ fuel step, terminate alwaysDelivered fuel step = none) ∧
    deliveredAt5 0 = false ∧
    terminate deliveredAt5 10 0 = some 0 := by
  refine ⟨?_, by decide, by decide⟩
  intro fuel
  induction fuel with
  | zero => intro step; rfl
  | succ n ih => intro step; simpa [terminate, alwaysDelivered] using ih (step + 1)

/-- C9: feeding one further nonempty byte to a message-complete parser
first extends the buffer (so the state is changed) and then enters the
parse loop, in which no branch applies to the complete state: the loop
never reaches a return statement, exhausting every fuel budget, so
feed_data does not terminate on this input. No callback is invoked. -/
theorem c9_feed_after_complete_diverges :
    (∀ fuel : Nat,
      feed_data fuel completedReqParser (bstr "x")
        = ⟨{ completedReqParser with buf := completedReqParser.buf ++ bstr "x" }, [],
            FeedExit.fuelOut⟩) ∧
    ({ completedReqParser with buf := completedReqParser.buf ++ bstr "x" }
      ≠ completedReqParser) := by
  refine ⟨?_, by decide⟩
  intro fuel
  rw [feed_data, if_neg (by decide)]
  exact feedLoop_stuck fuel _ [] (by decide)

/-- C10: feeding empty data twice in a row gives, on the second call, a
no-op that returns the state of the first call unchanged with no
callback; and on a parser that is already message-complete even the
first empty feed is a complete no-op, so signalling EOF by an empty
feed is idempotent and the message-complete callback never fires a
second time. -/
theorem c10_empty_feed_idempotent (p : HttpParser) (f1 f2 : Nat) :
    feed_data f2 (feed_data f1 p []).state [] = ⟨(feed_data f1 p []).state, [], FeedExit.done⟩ ∧
    (is_message_complete p = true → feed_data f1 p [] = ⟨p, [], FeedExit.done⟩) :=
  ⟨feed_empty_complete f2 _ (feed_empty_completes f1 p),
   fun hm => feed_empty_complete f1 p hm⟩

/-- C10 witness: the concrete message-complete parser obtained from the
designated empty feed is left untouched by a further empty feed. -/
theorem c10_empty_feed_idempotent_witness :
    is_message_complete completedReqParser = true ∧
    feed_data 3 completedReqParser [] = ⟨completedReqParser, [], FeedExit.done⟩ := by
  exact ⟨by decide, (c10_empty_feed_idempotent completedReqParser 3 3).2 (by decide)⟩
